import Mathlib

/-!
Verification of the KING memory subsystem (src/king/gateway/memory/).

Shallow embedding: Python floats are modelled as real numbers, timestamps as
real-valued seconds since epoch (all datetimes treated as timezone-aware, one
clock instant per resolution), Python dicts with defaulted `.get` reads as
structures with `Option` fields, fallible external calls (Supabase, Mem0,
Gemini) as `Except Unit`-valued oracles supplied through environment records,
and in-place mutation of shared Python objects as explicit state passing.
-/

noncomputable section

/-! ### types.py -/

/-- Mem0-aligned memory layers (types.py `MemoryLayer`). -/
inductive MemoryLayer where
  | CONVERSATION
  | SESSION
  | USER
  | AGENT
  | KINGDOM
deriving DecidableEq, Repr

/-- The five memory tiers (types.py `MemoryType`, a str-valued Enum). -/
inductive MemoryType where
  | collective
  | lineage
  | episodic
  | semantic
  | working
deriving DecidableEq, Repr

/-- String value of each `MemoryType` enum member. -/
def MemoryType.value : MemoryType → String
  | .collective => "collective"
  | .lineage => "lineage"
  | .episodic => "episodic"
  | .semantic => "semantic"
  | .working => "working"

/-- Python `MemoryType(s)` lookup-by-value: `some` tier on a valid value,
`none` models the `ValueError` branch. -/
def memoryTypeOfValue (s : String) : Option MemoryType :=
  if s = "collective" then some .collective
  else if s = "lineage" then some .lineage
  else if s = "episodic" then some .episodic
  else if s = "semantic" then some .semantic
  else if s = "working" then some .working
  else none

/-- types.py `EntityType`. -/
inductive EntityType where
  | HUMAN
  | AI
  | ORGANIZATION
  | SYSTEM
deriving DecidableEq, Repr

/-- String value of each `EntityType` enum member. -/
def EntityType.value : EntityType → String
  | .HUMAN => "Human"
  | .AI => "AI"
  | .ORGANIZATION => "Organization"
  | .SYSTEM => "System"

/-- types.py `MEMORY_RESOLUTION_ORDER`: most specific to most general. -/
def MEMORY_RESOLUTION_ORDER : List MemoryType :=
  [.working, .episodic, .semantic, .lineage, .collective]

/-- types.py `MemoryConfig`. -/
structure MemoryConfig where
  scope : String
  decays : Bool
  default_importance : ℝ
  enable_graph : Bool
  mem0_layer : MemoryLayer

/-- types.py `MEMORY_CONFIGS`.  The Python dict has an entry for every
`MemoryType`, so it is embedded as a total function (the `.get` miss branch in
`calculate_importance` is unreachable). -/
def MEMORY_CONFIGS : MemoryType → MemoryConfig
  | .collective => ⟨"kingdom", false, 1.0, true, .KINGDOM⟩
  | .lineage => ⟨"agent_type", false, 0.9, false, .AGENT⟩
  | .episodic => ⟨"user+session", true, 0.7, false, .SESSION⟩
  | .semantic => ⟨"user", false, 0.8, false, .USER⟩
  | .working => ⟨"session", true, 1.0, false, .CONVERSATION⟩

/-- types.py `Memory` dataclass.  Field order follows the source; the
`created_at` default (`datetime.utcnow` at construction) is passed explicitly
by each construction site.  The dataclass performs no validation. -/
structure Memory where
  content : String
  memory_type : MemoryType
  importance : ℝ
  created_at : ℝ
  metadata : List (String × String)
  user_id : Option String
  agent_id : Option String
  session_id : Option String
  mem0_id : Option String

/-- types.py `MemorySearchResult`.  `memories` is a Python dict preserving
insertion order, embedded as an association list written by `dictAssign`. -/
structure MemorySearchResult where
  memories : List (MemoryType × List Memory)
  total_count : Nat
  search_time_ms : ℝ

/-- Python dict assignment `d[k] = v`: replace the value in place if the key
exists (keeping its position), otherwise append the new binding. -/
def dictAssign : List (MemoryType × List Memory) → MemoryType → List Memory →
    List (MemoryType × List Memory)
  | [], k, v => [(k, v)]
  | (k', v') :: rest, k, v =>
      if k' = k then (k, v) :: rest else (k', v') :: dictAssign rest k v

/-! ### decay.py -/

/-- decay.py `EPISODIC_HALF_LIFE_DAYS`. -/
def EPISODIC_HALF_LIFE_DAYS : ℝ := 30

/-- decay.py `WORKING_MEMORY_TTL_HOURS`. -/
def WORKING_MEMORY_TTL_HOURS : ℝ := 24

/-- decay.py `calculate_decay_factor`.  The Python default argument
`half_life_days=EPISODIC_HALF_LIFE_DAYS` is passed explicitly by callers. -/
def calculate_decay_factor (age_days : ℝ) (half_life_days : ℝ) : ℝ :=
  if age_days ≤ 0 then 1.0
  else max 0.01 (Real.exp (-age_days / half_life_days))

/-- decay.py `calculate_importance`.  The Python `current_time=None` default
(now) is passed explicitly; naive/aware timezone normalization is a no-op in
this model since timestamps are plain reals. -/
def calculate_importance (memory : Memory) (current_time : ℝ) : ℝ :=
  let config := MEMORY_CONFIGS memory.memory_type
  if config.decays = false then memory.importance
  else
    let age_seconds := current_time - memory.created_at
    let age_days := age_seconds / 86400
    if memory.memory_type = MemoryType.working then
      let age_hours := age_seconds / 3600
      if age_hours > WORKING_MEMORY_TTL_HOURS then 0.0 else memory.importance
    else if memory.memory_type = MemoryType.episodic then
      memory.importance * calculate_decay_factor age_days EPISODIC_HALF_LIFE_DAYS
    else memory.importance

/-- The in-place loop of decay.py `apply_decay_to_memories`
(`for memory in memories: memory.importance = calculate_importance(...)`):
each element of the list has its `importance` field overwritten. -/
def overwriteImportances (current_time : ℝ) : List Memory → List Memory
  | [] => []
  | m :: rest =>
      { m with importance := calculate_importance m current_time } ::
        overwriteImportances current_time rest

/-- Python `sorted(memories, key=lambda m: m.importance, reverse=True)`:
stable descending insertion position for one element. -/
def insertDesc (m : Memory) : List Memory → List Memory
  | [] => [m]
  | x :: xs => if x.importance < m.importance then m :: x :: xs
               else x :: insertDesc m xs

/-- Python `sorted(..., key=lambda m: m.importance, reverse=True)`: stable sort
by importance descending (ties keep original order). -/
def sortByImportanceDesc (ms : List Memory) : List Memory :=
  ms.foldl (fun acc m => insertDesc m acc) []

/-- decay.py `apply_decay_to_memories`.  Because the Python function mutates
the shared `Memory` objects before sorting, the embedding returns both the
post-mutation input list (first component, modelling the caller's aliased
list) and the sorted list that the function returns (second component). -/
def apply_decay_to_memories (memories : List Memory) (current_time : ℝ) :
    List Memory × List Memory :=
  let mutated := overwriteImportances current_time memories
  (mutated, sortByImportanceDesc mutated)

/-- decay.py `filter_expired_memories`.  The Python default
`min_importance=0.1` is passed explicitly by callers. -/
def filter_expired_memories (memories : List Memory) (min_importance : ℝ) :
    List Memory :=
  memories.filter (fun m => decide (m.importance ≥ min_importance))

/-! ### seeding.py -/

/-- seeding.py `COLLECTIVE_MEMORIES` (content, category). -/
def COLLECTIVE_MEMORIES : List (String × String) :=
  [("I am KING - Kingdom Intelligence Nexus Gateway, an AI orchestration system", "identity"),
   ("I was created by Yaazhan as part of the ai-ecosystem project", "identity"),
   ("I coordinate specialist agents to solve complex tasks", "identity"),
   ("My core agents are: code_writer, code_reviewer, video_planner, script_writer, memory_selector", "agents"),
   ("code_writer depends_on code_reviewer for quality assurance", "agent_relations"),
   ("video_planner collaborates_with script_writer for content creation", "agent_relations"),
   ("I always output valid JSON, never raw prose unless explicitly asked", "rules"),
   ("I use Mem0 for memory, Supabase for state, Gemini for reasoning", "tech"),
   ("My agents follow DNA rules that define their behavior and constraints", "rules"),
   ("I never execute code without sandbox isolation for unverified agents", "security")]

/-- seeding.py `LINEAGE_MEMORIES` dict, embedded as the total lookup
`LINEAGE_MEMORIES.get(agent_id, [])` used by `get_lineage_memories`. -/
def LINEAGE_MEMORIES (agent_id : String) : List (String × String) :=
  if agent_id = "code_writer" then
    [("Python follows PEP8, uses snake_case for functions and variables", "style"),
     ("Always include error handling, never assume happy path", "practice"),
     ("Include type hints for all function parameters and return values", "style"),
     ("Write docstrings for all public functions and classes", "practice"),
     ("Prefer composition over inheritance", "design")]
  else if agent_id = "code_reviewer" then
    [("Check for SQL injection, XSS, and hardcoded secrets in every review", "security"),
     ("Verify error handling exists for all external calls", "practice"),
     ("Never approve code with critical security issues", "rules"),
     ("Look for missing input validation on user-facing endpoints", "security"),
     ("Ensure tests exist for new functionality", "practice")]
  else if agent_id = "video_planner" then
    [("Instagram Reels perform best at 15-30 seconds", "platform"),
     ("Hook must come in first 3 seconds to retain viewers", "engagement"),
     ("Always gather: topic, audience, tone, duration before planning", "process"),
     ("Vertical 9:16 aspect ratio for TikTok and Reels", "format"),
     ("Include call-to-action in final 5 seconds", "engagement")]
  else if agent_id = "script_writer" then
    [("Open with a pattern interrupt or provocative question", "hook"),
     ("One idea per sentence for spoken content", "style"),
     ("Use conversational tone, avoid jargon unless audience expects it", "style"),
     ("Structure: Hook -> Problem -> Solution -> CTA", "format"),
     ("Read scripts aloud to check natural flow", "practice")]
  else if agent_id = "memory_selector" then
    [("Reject memories with relevance score below 0.6", "threshold"),
     ("Prefer user preferences and constraints over general facts", "priority"),
     ("Deduplicate similar memories, keep highest importance", "rules"),
     ("Limit injected memories to 5-7 to avoid context pollution", "rules")]
  else []

/-- seeding.py `get_collective_memories`; `now` is the construction-time
`datetime.utcnow` default of `Memory.created_at`. -/
def get_collective_memories (now : ℝ) : List Memory :=
  COLLECTIVE_MEMORIES.map (fun m =>
    ⟨m.1, .collective, 1.0, now, [("category", m.2), ("scope", "kingdom")],
     none, none, none, none⟩)

/-- seeding.py `get_lineage_memories`. -/
def get_lineage_memories (agent_id : String) (now : ℝ) : List Memory :=
  (LINEAGE_MEMORIES agent_id).map (fun m =>
    ⟨m.1, .lineage, 0.9, now, [("category", m.2), ("scope", "agent_type")],
     none, some agent_id, none, none⟩)

/-! ### curator.py -/

/-- The `filters` sub-dict of a search plan.  Keys the curator may omit are
`Option`s; `keywords` is read only through `.get("keywords", [])`, so a
missing key is represented by the empty list. -/
structure PlanFilters where
  user_id : Option String
  agent_id : Option String
  time_range_days : Option Int
  keywords : List String
deriving DecidableEq, Repr

/-- Empty filters dict, the `plan.get("filters", {})` default. -/
def emptyFilters : PlanFilters := ⟨none, none, none, []⟩

/-- A curator search plan (the JSON dict produced by `create_search_plan`).
`tiers` is read only through `plan.get("tiers", [])`, so a missing key is
represented by `[]`; the other defaulted reads keep their `Option`. -/
structure SearchPlan where
  tiers : List String
  filters : Option PlanFilters
  limit_per_tier : Option Nat
  early_stop : Option Bool
  reasoning : Option String
deriving DecidableEq, Repr

/-- Python `x or default` on an optional string (falsy: `None` and `""`). -/
def pyOrStr : Option String → String → String
  | none, d => d
  | some s, d => if s = "" then d else s

/-- Python string truthiness for an `Optional[str]`. -/
def pyTruthy : Option String → Bool
  | none => false
  | some s => s ≠ ""

/-- Python whitespace for `str.strip()` (the characters that occur here). -/
def isPyWs (c : Char) : Bool := c = ' ' ∨ c = '\t' ∨ c = '\n' ∨ c = '\r'

/-- Drop leading Python whitespace from a character list. -/
def dropLeadingWs : List Char → List Char
  | [] => []
  | c :: cs => if isPyWs c then dropLeadingWs cs else c :: cs

/-- Python `str.strip()`. -/
def pyStrip (s : String) : String :=
  ⟨(dropLeadingWs (dropLeadingWs s.data).reverse).reverse⟩

/-- curator.py: the code-fence stripping applied to the model output before
`json.loads` (strip, drop a leading ```json, drop a trailing ```, strip). -/
def stripCodeFences (t : String) : String :=
  let text := pyStrip t
  let text := if text.startsWith "```json" then text.drop 7 else text
  let text := if text.endsWith "```" then text.dropRight 3 else text
  pyStrip text

/-- curator.py `_get_fallback_plan`. -/
def get_fallback_plan (user_id : Option String) : SearchPlan :=
  { tiers := ["working", "episodic", "semantic", "lineage", "collective"],
    filters := some { emptyFilters with user_id := user_id },
    limit_per_tier := some 5,
    early_stop := some false,
    reasoning := some "fallback - curator unavailable" }

/-- External state of curator.py: `gen = none` models `curator_model = None`
(no GEMINI_API_KEY); otherwise `gen` is the Gemini call on the prompt pieces
(query, user id shown in the prompt, agent name, serialized session context),
raising (`.error`) on timeout or call failure; `parseJson` models
`json.loads`, raising on unparseable text. -/
structure CuratorEnv where
  gen : Option (String → String → String → String → Except Unit String)
  parseJson : String → Except Unit SearchPlan

/-- curator.py `create_search_plan`.  Returns the plan together with the
number of Gemini call attempts made (0 when no model is configured, otherwise
exactly the single `generate_content` call — the source has no retry loop). -/
def create_search_plan (env : CuratorEnv) (query : String)
    (user_id : Option String) (agent_name : String)
    (session_context : String) : SearchPlan × Nat :=
  match env.gen with
  | none => (get_fallback_plan user_id, 0)
  | some g =>
    match g query (pyOrStr user_id "anonymous") agent_name session_context with
    | .error _ => (get_fallback_plan user_id, 1)
    | .ok text =>
      match env.parseJson (stripCodeFences text) with
      | .error _ => (get_fallback_plan user_id, 1)
      | .ok plan => (plan, 1)

/-! ### entity_resolver.py -/

/-- An entity row / return dict.  The synthetic fallback dict carries no
`aliases` key, hence the `Option`. -/
structure Entity where
  id : Option String
  canonical_name : String
  aliases : Option (List String)
  type : String
deriving DecidableEq, Repr

/-- The payload of an `entities` insert. -/
structure NewEntity where
  canonical_name : String
  aliases : List String
  type : String
deriving DecidableEq, Repr

/-- External state of one `EntityResolver.resolve` call: the outcomes the
Supabase `entities` table would give to, in order, the first canonical-name
lookup, the alias-containment lookup, the insert, the retry canonical-name
lookup (the store may change between calls — concurrent writers), and the
`uuid.uuid4()` value used by the synthetic fallback. -/
structure EntityEnv where
  canonical1 : Except Unit (List Entity)
  aliasLookup : Except Unit (List Entity)
  insertResult : Except Unit (List Entity)
  canonical2 : Except Unit (List Entity)
  fresh_uuid : String

/-- entity_resolver.py `EntityResolver.resolve`.  Output: the returned entity
dict, the list of insert payloads sent to the store, and the number of
canonical-name lookups issued.  Lookup exceptions are logged and treated as
not-found (fall through), as in the source. -/
def EntityResolver.resolve (env : EntityEnv) (raw_handle : String) :
    Entity × List NewEntity × Nat :=
  let h := pyStrip raw_handle
  match env.canonical1 with
  | .ok (e :: _) => (e, [], 1)
  | _ =>
    match env.aliasLookup with
    | .ok (e :: _) => (e, [], 1)
    | _ =>
      let new_entity : NewEntity := ⟨h, [h], EntityType.SYSTEM.value⟩
      match env.insertResult with
      | .ok (e :: _) => (e, [new_entity], 1)
      | .ok [] =>
          (⟨some env.fresh_uuid, h, none, "Unresolved"⟩, [new_entity], 1)
      | .error _ =>
        match env.canonical2 with
        | .ok (e :: _) => (e, [new_entity], 2)
        | _ => (⟨some env.fresh_uuid, h, none, "Unresolved"⟩, [new_entity], 2)

/-! ### resolver.py -/

/-- One raw result of `mem0_client.search` (fields read through defaulted
`.get` calls are `Option`s). -/
structure Mem0Result where
  memory : Option String
  score : Option ℝ
  id : Option String
  metadata : Option (List (String × String))

/-- A call issued to the Mem0 durable-store search adapter. -/
structure Mem0Call where
  query : String
  user_id : String
  limit : Nat
deriving DecidableEq, Repr

/-- External state of a `MemoryResolver`: whether `mem0_client` is set, and
the adapter's behaviour on `search(query, user_id, limit)` — the `"results"`
list of the response, or an exception.  Seed memories come from the embedded
seeding.py, as in the source. -/
structure ResolveEnv where
  mem0_present : Bool
  mem0Search : String → String → Nat → Except Unit (List Mem0Result)

/-- The `Memory(...)` construction inside `_search_mem0`; `now` is the
construction-time `datetime.utcnow` default of `created_at`. -/
def mem0ToMemory (r : Mem0Result) (mem_type : MemoryType) (u : String)
    (agent_id : Option String) (now : ℝ) : Memory :=
  ⟨r.memory.getD "", mem_type, r.score.getD 0.5, now, r.metadata.getD [],
   some u, agent_id, none, r.id⟩

/-- resolver.py `MemoryResolver._search_mem0`.  Returns the tier's memories
together with the adapter calls issued (at most one).  Note the source
truncates to `limit` immediately, before any decay filtering, even though it
fetched `limit * 2` results. -/
def MemoryResolver.search_mem0 (env : ResolveEnv) (query : String)
    (user_id : Option String) (agent_id : Option String)
    (mem_type : MemoryType) (limit : Nat) (now : ℝ) :
    List Memory × List Mem0Call :=
  match user_id with
  | none => ([], [])
  | some u =>
    if env.mem0_present = false ∨ u = "" then ([], [])
    else
      match env.mem0Search query u (limit * 2) with
      | .error _ => ([], [⟨query, u, limit * 2⟩])
      | .ok results =>
          ((results.map (fun r => mem0ToMemory r mem_type u agent_id now)).take limit,
           [⟨query, u, limit * 2⟩])

/-- resolver.py `MemoryResolver._search_tier`.  `working` is the current
state of the caller-supplied `working_memories` list (already defaulted by
`working_memories or []`).  The collective/lineage caches are read-through to
the seeding functions: within a single `resolve` call a cache hit and a fresh
computation are indistinguishable. -/
def MemoryResolver.search_tier (env : ResolveEnv) (mem_type : MemoryType)
    (query : String) (user_id : Option String) (agent_id : Option String)
    (working : List Memory) (limit : Nat) (now : ℝ) :
    List Memory × List Mem0Call :=
  match mem_type with
  | .working => (working.take limit, [])
  | .collective => ((get_collective_memories now).take limit, [])
  | .lineage =>
      if pyTruthy agent_id then
        ((get_lineage_memories (agent_id.getD "") now).take limit, [])
      else ([], [])
  | .episodic => MemoryResolver.search_mem0 env query user_id agent_id .episodic limit now
  | .semantic => MemoryResolver.search_mem0 env query user_id agent_id .semantic limit now

/-- The per-resolution constants of the tier loop in
`MemoryResolver.resolve` (plan-derived values and ids). -/
structure LoopCtx where
  env : ResolveEnv
  query : String
  cuid : Option String
  aid : Option String
  limit : Nat
  earlyStop : Bool
  now : ℝ

/-- Mutable state threaded through the tier loop of `MemoryResolver.resolve`:
the result dict, the accumulated `total_count`, the caller's
`working_memories` list (whose elements `apply_decay_to_memories` mutates in
place), and the adapter calls issued so far. -/
structure LoopState where
  memories : List (MemoryType × List Memory)
  total : Nat
  working : List Memory
  calls : List Mem0Call

/-- One valid-tier iteration of the loop body of `MemoryResolver.resolve`
(lines 89-105): fetch the tier, and if anything was fetched apply decay
(mutating the fetched objects — for the WORKING tier these alias the first
`limit` elements of the caller's list), filter expired, truncate, store and
count. -/
def loopStep (c : LoopCtx) (mem_type : MemoryType) (st : LoopState) : LoopState :=
  let fc := MemoryResolver.search_tier c.env mem_type c.query c.cuid c.aid
      st.working c.limit c.now
  let st1 : LoopState := { st with calls := st.calls ++ fc.2 }
  if fc.1.isEmpty then st1
  else
    let pair := apply_decay_to_memories fc.1 c.now
    let filtered := (filter_expired_memories pair.2 0.1).take c.limit
    let working2 := if mem_type = MemoryType.working
      then pair.1 ++ st1.working.drop c.limit else st1.working
    { memories := dictAssign st1.memories mem_type filtered,
      total := st1.total + filtered.length,
      working := working2,
      calls := st1.calls }

/-- Python `str.lower` on one character (ASCII range, which covers every
tier name). -/
def pyCharLower (c : Char) : Char :=
  if c.toNat ≥ 65 ∧ c.toNat ≤ 90 then Char.ofNat (c.toNat + 32) else c

/-- Python `str.lower` (ASCII range). -/
def strToLower (s : String) : String := ⟨s.data.map pyCharLower⟩

/-- resolver.py line 84, `MemoryType(tier_name.lower())`: `none` models the
`ValueError` branch for an unknown tier name. -/
def parseTier (t : String) : Option MemoryType :=
  memoryTypeOfValue (strToLower t)

/-- The tier loop of `MemoryResolver.resolve` (lines 81-109).  Returns the
final state and the trace of tiers actually fetched, in order.  An unknown
tier name is skipped with a warning (`continue`, which also skips the
early-stop check); after each fetched tier the loop breaks when
`plan.get("early_stop")` holds and `total_count >= limit_per_tier * 2`. -/
def resolveLoop (c : LoopCtx) : List String → LoopState → LoopState × List MemoryType
  | [], st => (st, [])
  | t :: rest, st =>
    match parseTier t with
    | none => resolveLoop c rest st
    | some mem_type =>
      let st2 := loopStep c mem_type st
      if c.earlyStop && decide (st2.total ≥ c.limit * 2) then (st2, [mem_type])
      else
        let r := resolveLoop c rest st2
        (r.1, mem_type :: r.2)

/-- The loop context built by `MemoryResolver.resolve` from the plan (lines
67-79): defaulted `limit_per_tier`, the security overwrite
`filters["user_id"] = canonical_user_id`, and the keyword-augmented search
query. -/
def mkLoopCtx (env : ResolveEnv) (plan : SearchPlan) (query : String)
    (canonical_user_id : Option String) (agent_id : Option String)
    (now : ℝ) : LoopCtx :=
  let limit_per_tier := plan.limit_per_tier.getD 5
  let filters0 := plan.filters.getD emptyFilters
  let filters := { filters0 with user_id := canonical_user_id }
  let search_keywords := filters.keywords
  let search_query := if search_keywords.isEmpty then query
    else query ++ " " ++ String.intercalate " " search_keywords
  { env := env, query := search_query, cuid := canonical_user_id,
    aid := agent_id, limit := limit_per_tier,
    earlyStop := plan.early_stop.getD false, now := now }

/-- Aggregate output of one `MemoryResolver.resolve` call: the returned
`MemorySearchResult`, the Mem0 adapter calls issued, the tiers fetched in
order, and the post-call state of the caller-supplied `working_memories`
list (its elements are mutated in place by the WORKING tier's decay pass). -/
structure ResolveOutput where
  result : MemorySearchResult
  mem0Calls : List Mem0Call
  tierTrace : List MemoryType
  workingAfter : List Memory

/-- resolver.py `MemoryResolver.resolve`, lines 65-112: the part of `resolve`
that runs on an already-obtained search plan and canonical user id.
`search_time_ms` (wall-clock time) is not modelled and reported as 0. -/
def resolveWithPlan (env : ResolveEnv) (plan : SearchPlan) (query : String)
    (canonical_user_id : Option String) (agent_id : Option String)
    (session_id : Option String) (working_memories : Option (List Memory))
    (now : ℝ) : ResolveOutput :=
  let c := mkLoopCtx env plan query canonical_user_id agent_id now
  let init : LoopState := ⟨[], 0, working_memories.getD [], []⟩
  let r := resolveLoop c plan.tiers init
  { result := ⟨r.1.memories, r.1.total, 0⟩,
    mem0Calls := r.1.calls,
    tierTrace := r.2,
    workingAfter := r.1.working }

/-- resolver.py `MemoryResolver.resolve`, lines 44-63 composed with the rest:
canonical user id via the optional entity resolver (`str(entity["id"])` when
the resolved dict has an id, the passed `user_id` otherwise), then the
curator plan, then the plan-driven traversal. -/
def MemoryResolver.resolve (env : ResolveEnv) (curatorEnv : CuratorEnv)
    (entityEnv : Option EntityEnv) (query : String) (user_id : Option String)
    (agent_id : Option String) (session_id : Option String)
    (working_memories : Option (List Memory)) (resolve_entity : Bool)
    (session_context : String) (now : ℝ) : ResolveOutput :=
  let canonical_user_id :=
    if resolve_entity ∧ pyTruthy user_id then
      match entityEnv with
      | some ee =>
        match (EntityResolver.resolve ee (user_id.getD "")).1.id with
        | some i => some i
        | none => user_id
      | none => user_id
    else user_id
  let plan := (create_search_plan curatorEnv query canonical_user_id
      (pyOrStr agent_id "unknown") session_context).1
  resolveWithPlan env plan query canonical_user_id agent_id session_id
    working_memories now

/-! ### Specification-side definitions (for stating the claims) -/

/-- Modelled from the spec: the number of tiers the traversal fetches, given
the cumulative `total_count` after each valid tier of a non-stopping run —
the loop stops after a tier exactly when `early_stop` is set and that tier's
cumulative total has reached `limit_per_tier * 2`. -/
def stopLen (early : Bool) (limit_per_tier : Nat) : List Nat → Nat
  | [] => 0
  | tot :: rest =>
      (if early && decide (tot ≥ limit_per_tier * 2) then 0
       else stopLen early limit_per_tier rest) + 1

/-- Reference run of the tier loop with the early-stop break removed,
recording the cumulative `total_count` after each valid tier. -/
def tierTotals (c : LoopCtx) : List String → LoopState → List Nat
  | [], _ => []
  | t :: rest, st =>
    match parseTier t with
    | none => tierTotals c rest st
    | some mem_type =>
      let st2 := loopStep c mem_type st
      st2.total :: tierTotals c rest st2

/-- The cumulative per-tier totals of one `resolveWithPlan` run, computed
without early stopping. -/
def resolveTierTotals (env : ResolveEnv) (plan : SearchPlan) (query : String)
    (canonical_user_id : Option String) (agent_id : Option String)
    (working_memories : Option (List Memory)) (now : ℝ) : List Nat :=
  tierTotals (mkLoopCtx env plan query canonical_user_id agent_id now)
    plan.tiers ⟨[], 0, working_memories.getD [], []⟩

/-- Modelled from the spec: "tiers reordered to match ResolutionOrder" — the
traversal order the claim C2 predicts for a plan's tier set. -/
def reorderToResolutionOrder (tiers : List MemoryType) : List MemoryType :=
  MEMORY_RESOLUTION_ORDER.filter (fun mt => tiers.contains mt)

/-- Replace only the `filters.user_id` a plan proposes (the adversarial
curator of claim C1), leaving every other observable plan field unchanged. -/
def setFilterUserId (p : SearchPlan) (v : Option String) : SearchPlan :=
  { p with filters := some { p.filters.getD emptyFilters with user_id := v } }

/-- The element-wise effect of `apply_decay_to_memories` on the objects of
its argument list: the `importance` field is overwritten with the effective
importance. -/
def overwriteImportance (current_time : ℝ) (m : Memory) : Memory :=
  { m with importance := calculate_importance m current_time }

/-- The curator is unavailable or its call fails: no model configured, the
Gemini call raises (timeout/error), or its output is unparseable. -/
def curatorUnusable (env : CuratorEnv) (q uidP an sc : String) : Prop :=
  match env.gen with
  | none => True
  | some g =>
    match g q uidP an sc with
    | .error _ => True
    | .ok t => env.parseJson (stripCodeFences t) = .error ()

/-! ### Concrete instances for counterexamples and witnesses -/

/-- A resolver environment with no Mem0 client configured. -/
def noMem0Env : ResolveEnv := ⟨false, fun _ _ _ => .ok []⟩

/-- Plan proposing the tier order ["collective", "working"] (claim C2). -/
def c2Plan : SearchPlan := ⟨["collective", "working"], none, none, none, none⟩

/-- A Memory constructed with importance 2.0, outside [0, 1] (claim C4): the
dataclass accepts it without validation. -/
def badMemory : Memory := ⟨"c", .semantic, 2, 0, [], none, none, none, none⟩

/-- An existing entity row for the entity-resolver scenarios (claim C5). -/
def entX : Entity := ⟨some "e1", "bob", some ["bob"], "System"⟩

/-- Entity store outcomes: both lookups find nothing and the optimistic
insert succeeds (claim C5 counterexample). -/
def c5InsertEnv : EntityEnv := ⟨.ok [], .ok [], .ok [entX], .ok [], "syn-1"⟩

/-- Entity store outcomes: both lookups find nothing, the insert conflicts,
and the retry fetch finds the concurrently created row (claim C5 witness). -/
def c5ConflictEnv : EntityEnv := ⟨.ok [], .ok [], .error (), .ok [entX], "syn-1"⟩

/-- Mem0 result with the given relevance score. -/
def mkMem0Result (s : ℝ) : Mem0Result := ⟨some "m", some s, none, none⟩

/-- Mem0 adapter returning four episodic hits with scores
[0.05, 0.05, 0.9, 0.9] for any search (claim C6 failing input). -/
def c6Env : ResolveEnv :=
  ⟨true, fun _ _ _ => .ok [mkMem0Result 0.05, mkMem0Result 0.05,
                           mkMem0Result 0.9, mkMem0Result 0.9]⟩

/-- Plan searching only the EPISODIC tier with `limit_per_tier = 2`
(claim C6 failing input). -/
def c6Plan : SearchPlan := ⟨["episodic"], none, some 2, none, none⟩

/-- The four memories `_search_mem0` builds from the `c6Env` hits. -/
def c6AllMemories (now : ℝ) : List Memory :=
  [mkMem0Result 0.05, mkMem0Result 0.05, mkMem0Result 0.9,
   mkMem0Result 0.9].map (fun r => mem0ToMemory r .episodic "alice" none now)

/-- The episodic memory `_search_mem0` builds from a `c6Env` hit with score
`s` (created at the resolution instant 0). -/
def c6Mem (s : ℝ) : Memory :=
  ⟨"m", .episodic, s, 0, [], some "alice", none, none, none⟩

/-- An EPISODIC memory created at time 0 with raw importance 0.5
(claim C3 witness). -/
def epMemory : Memory := ⟨"e", .episodic, 0.5, 0, [], none, none, none, none⟩

/-- A WORKING memory created at time 0 with raw importance 0.5 (claims C7 and
C10 witnesses). -/
def wkMemory : Memory := ⟨"w", .working, 0.5, 0, [], none, none, none, none⟩

/-- A curator environment with no Gemini model configured (claim C8
witness). -/
def noCuratorEnv : CuratorEnv := ⟨none, fun _ => .error ()⟩

/-- Plan searching only the WORKING tier with `limit_per_tier = 1`
(claim C10 witness). -/
def c10Plan : SearchPlan := ⟨["working"], none, some 1, none, none⟩

/-! ### Helper lemmas -/

theorem parseTier_working : parseTier "working" = some MemoryType.working := by
  decide

theorem parseTier_episodic : parseTier "episodic" = some MemoryType.episodic := by
  decide

theorem parseTier_semantic : parseTier "semantic" = some MemoryType.semantic := by
  decide

theorem parseTier_lineage : parseTier "lineage" = some MemoryType.lineage := by
  decide

theorem parseTier_collective : parseTier "collective" = some MemoryType.collective := by
  decide

theorem overwriteImportances_eq_map (now : ℝ) (ms : List Memory) :
    overwriteImportances now ms = ms.map (overwriteImportance now) := by
  induction ms with
  | nil => rfl
  | cons m rest ih => simp [overwriteImportances, overwriteImportance, ih]

theorem calculate_importance_of_not_decays (m : Memory) (t : ℝ)
    (h : (MEMORY_CONFIGS m.memory_type).decays = false) :
    calculate_importance m t = m.importance := by
  simp [calculate_importance, h]

theorem calculate_importance_working (m : Memory) (t : ℝ)
    (h : m.memory_type = MemoryType.working) :
    calculate_importance m t =
      if (t - m.created_at) / 3600 > WORKING_MEMORY_TTL_HOURS then 0
      else m.importance := by
  simp [calculate_importance, h, MEMORY_CONFIGS]
  norm_num

theorem calculate_importance_episodic (m : Memory) (t : ℝ)
    (h : m.memory_type = MemoryType.episodic) :
    calculate_importance m t =
      m.importance *
        calculate_decay_factor ((t - m.created_at) / 86400) EPISODIC_HALF_LIFE_DAYS := by
  simp [calculate_importance, h, MEMORY_CONFIGS]

theorem loopStep_calls (c : LoopCtx) (mt : MemoryType) (st : LoopState) :
    (loopStep c mt st).calls = st.calls ++
      (MemoryResolver.search_tier c.env mt c.query c.cuid c.aid
        st.working c.limit c.now).2 := by
  by_cases h : (MemoryResolver.search_tier c.env mt c.query c.cuid c.aid
      st.working c.limit c.now).1.isEmpty = true
  · simp [loopStep, h]
  · simp [loopStep, h]

theorem loopStep_working_of_ne (c : LoopCtx) (mt : MemoryType) (st : LoopState)
    (h : mt ≠ MemoryType.working) :
    (loopStep c mt st).working = st.working := by
  by_cases hemp : (MemoryResolver.search_tier c.env mt c.query c.cuid c.aid
      st.working c.limit c.now).1.isEmpty = true
  · simp [loopStep, hemp]
  · simp [loopStep, hemp, h]

theorem search_mem0_calls (env : ResolveEnv) (q : String) (uid aid : Option String)
    (mt : MemoryType) (l : Nat) (now : ℝ) (call : Mem0Call)
    (hc : call ∈ (MemoryResolver.search_mem0 env q uid aid mt l now).2) :
    ∃ u, uid = some u ∧ call = ⟨q, u, l * 2⟩ := by
  unfold MemoryResolver.search_mem0 at hc
  cases uid with
  | none => simp at hc
  | some u =>
    refine ⟨u, rfl, ?_⟩
    dsimp only at hc
    by_cases h : env.mem0_present = false ∨ u = ""
    · simp [h] at hc
    · rw [if_neg h] at hc
      rcases hgen : env.mem0Search q u (l * 2) with e | rs <;>
        rw [hgen] at hc <;> simpa using hc

theorem search_tier_calls (env : ResolveEnv) (mt : MemoryType) (q : String)
    (uid aid : Option String) (w : List Memory) (l : Nat) (now : ℝ) (call : Mem0Call)
    (hc : call ∈ (MemoryResolver.search_tier env mt q uid aid w l now).2) :
    ∃ u, uid = some u ∧ call = ⟨q, u, l * 2⟩ := by
  cases mt with
  | working => simp [MemoryResolver.search_tier] at hc
  | collective => simp [MemoryResolver.search_tier] at hc
  | lineage =>
      dsimp only [MemoryResolver.search_tier] at hc
      by_cases hT : pyTruthy aid = true
      · simp [hT] at hc
      · simp [hT] at hc
  | episodic => exact search_mem0_calls env q uid aid .episodic l now call hc
  | semantic => exact search_mem0_calls env q uid aid .semantic l now call hc

theorem resolveLoop_calls (c : LoopCtx) (tiers : List String) (st : LoopState)
    (call : Mem0Call) (hc : call ∈ (resolveLoop c tiers st).1.calls) :
    call ∈ st.calls ∨ ∃ u, c.cuid = some u ∧ call = ⟨c.query, u, c.limit * 2⟩ := by
  induction tiers generalizing st with
  | nil => exact Or.inl (by simpa [resolveLoop] using hc)
  | cons t rest ih =>
    rw [resolveLoop] at hc
    cases hp : parseTier t with
    | none =>
      rw [hp] at hc
      exact ih st hc
    | some mt =>
      rw [hp] at hc
      dsimp only at hc
      by_cases hstop :
          (c.earlyStop && decide ((loopStep c mt st).total ≥ c.limit * 2)) = true
      · rw [if_pos hstop] at hc
        rw [loopStep_calls] at hc
        rcases List.mem_append.1 hc with h | h
        · exact Or.inl h
        · exact Or.inr (search_tier_calls _ _ _ _ _ _ _ _ _ h)
      · rw [if_neg hstop] at hc
        rcases ih (loopStep c mt st) hc with h | h
        · rw [loopStep_calls] at h
          rcases List.mem_append.1 h with h1 | h1
          · exact Or.inl h1
          · exact Or.inr (search_tier_calls _ _ _ _ _ _ _ _ _ h1)
        · exact Or.inr h

theorem resolveLoop_trace (c : LoopCtx) (tiers : List String) (st : LoopState) :
    (resolveLoop c tiers st).2 =
      (tiers.filterMap parseTier).take
        (stopLen c.earlyStop c.limit (tierTotals c tiers st)) := by
  induction tiers generalizing st with
  | nil => simp [resolveLoop, tierTotals, stopLen]
  | cons t rest ih =>
    cases hp : parseTier t with
    | none => simp only [resolveLoop, tierTotals, hp, ih st, List.filterMap_cons]
    | some mt =>
      simp only [resolveLoop, tierTotals, hp, List.filterMap_cons]
      by_cases hstop :
          (c.earlyStop && decide ((loopStep c mt st).total ≥ c.limit * 2)) = true
      · simp [hstop, stopLen, List.take_succ_cons]
      · simp [hstop, stopLen, List.take_succ_cons, ih]

theorem resolveLoop_working (c : LoopCtx) (tiers : List String) (st : LoopState)
    (h : MemoryType.working ∉ tiers.filterMap parseTier) :
    ((resolveLoop c tiers st).1).working = st.working := by
  induction tiers generalizing st with
  | nil => simp [resolveLoop]
  | cons t rest ih =>
    cases hp : parseTier t with
    | none =>
      rw [resolveLoop, hp]
      exact ih st (by simpa [List.filterMap_cons, hp] using h)
    | some mt =>
      have hmt : mt ≠ MemoryType.working := by
        intro e
        exact h (by simp [List.filterMap_cons, hp, e])
      have hrest : MemoryType.working ∉ rest.filterMap parseTier := by
        intro hm
        exact h (by simp [List.filterMap_cons, hp, hm])
      rw [resolveLoop, hp]
      dsimp only
      by_cases hstop :
          (c.earlyStop && decide ((loopStep c mt st).total ≥ c.limit * 2)) = true
      · rw [if_pos hstop]
        exact loopStep_working_of_ne c mt st hmt
      · rw [if_neg hstop]
        dsimp only
        rw [ih (loopStep c mt st) hrest]
        exact loopStep_working_of_ne c mt st hmt

theorem loopStep_working_eq (c : LoopCtx) (st : LoopState)
    (hne : (st.working.take c.limit).isEmpty = false) :
    (loopStep c MemoryType.working st).working =
      (st.working.take c.limit).map (overwriteImportance c.now) ++
        st.working.drop c.limit := by
  simp [loopStep, MemoryResolver.search_tier, hne, apply_decay_to_memories,
    overwriteImportances_eq_map]

/-! ### Claims -/

/-- Claim C1: for every search plan, the resolver overwrites the plan's
`filters.user_id` with the authenticated caller's canonical user id, so every
durable-store (Mem0) search call carries exactly the caller's id, and two
runs differing only in the curator-proposed `filters.user_id` issue identical
durable-store calls. -/
theorem claim_C1 (env : ResolveEnv) (plan : SearchPlan) (query : String)
    (cuid aid sid : Option String) (ws : Option (List Memory)) (now : ℝ)
    (v : Option String) :
    ((resolveWithPlan env plan query cuid aid sid ws now).mem0Calls.Forall
        (fun call => cuid = some call.user_id))
    ∧ (resolveWithPlan env (setFilterUserId plan v) query cuid aid sid ws
        now).mem0Calls
      = (resolveWithPlan env plan query cuid aid sid ws now).mem0Calls := by
  constructor
  · rw [List.forall_iff_forall_mem]
    intro call hc
    simp only [resolveWithPlan] at hc
    rcases resolveLoop_calls (mkLoopCtx env plan query cuid aid now) plan.tiers
        ⟨[], 0, ws.getD [], []⟩ call hc with h | ⟨u, hu, hcall⟩
    · simp at h
    · have h1 : cuid = some u := hu
      have h2 : call.user_id = u := by rw [hcall]
      rw [h1, h2]
  · rfl

/-- Claim C2 (amended): the resolver traverses tiers in the plan-supplied
order (unknown tier names skipped, early stop may truncate); it does NOT
reorder them to `MEMORY_RESOLUTION_ORDER` — the fetched-tier trace is always
an initial segment of the plan's own valid tier sequence. -/
theorem claim_C2_amended (env : ResolveEnv) (plan : SearchPlan) (query : String)
    (cuid aid sid : Option String) (ws : Option (List Memory)) (now : ℝ) :
    ∃ n, (resolveWithPlan env plan query cuid aid sid ws now).tierTrace =
      (plan.tiers.filterMap parseTier).take n :=
  ⟨_, resolveLoop_trace (mkLoopCtx env plan query cuid aid now) plan.tiers
    ⟨[], 0, ws.getD [], []⟩⟩

/-- Claim C2 counterexample: for the plan tiers `["collective", "working"]`
the resolver queries COLLECTIVE first and WORKING second — not the
ResolutionOrder-reordered `[WORKING, COLLECTIVE]` the claim predicts. -/
theorem claim_C2_counterexample :
    (resolveWithPlan noMem0Env c2Plan "q" (some "u1") none none none
        0).tierTrace = [MemoryType.collective, MemoryType.working]
    ∧ reorderToResolutionOrder [MemoryType.collective, MemoryType.working]
        = [MemoryType.working, MemoryType.collective]
    ∧ ([MemoryType.collective, MemoryType.working] : List MemoryType)
        ≠ [MemoryType.working, MemoryType.collective] := by
  refine ⟨?_, by decide, by decide⟩
  simp [resolveWithPlan, mkLoopCtx, c2Plan, resolveLoop, parseTier_collective,
    parseTier_working, emptyFilters]

/-- Claim C3: an EPISODIC memory with positive age decays by
`max(0.01, exp(-age_days / 30))` (half-life 30 days, floored at the 0.01
minimum retention); with `age_days <= 0` (clock skew) the decay factor is
exactly 1 and the effective importance is the raw importance. -/
theorem claim_C3 (m : Memory) (t : ℝ) (h : m.memory_type = MemoryType.episodic) :
    EPISODIC_HALF_LIFE_DAYS = 30
    ∧ (0 < (t - m.created_at) / 86400 →
        calculate_importance m t =
          m.importance *
            max 0.01 (Real.exp (-((t - m.created_at) / 86400) / 30)))
    ∧ ((t - m.created_at) / 86400 ≤ 0 →
        calculate_decay_factor ((t - m.created_at) / 86400)
            EPISODIC_HALF_LIFE_DAYS = 1
        ∧ calculate_importance m t = m.importance) := by
  refine ⟨rfl, ?_, ?_⟩
  · intro hpos
    rw [calculate_importance_episodic m t h]
    rw [calculate_decay_factor, if_neg (not_le.2 hpos)]
    norm_num [EPISODIC_HALF_LIFE_DAYS]
  · intro hle
    have hf : calculate_decay_factor ((t - m.created_at) / 86400)
        EPISODIC_HALF_LIFE_DAYS = 1 := by
      rw [calculate_decay_factor, if_pos hle]
      norm_num
    refine ⟨hf, ?_⟩
    rw [calculate_importance_episodic m t h, hf, mul_one]

/-- Claim C3 witness: an EPISODIC memory created at time 0, scored one day
later (age_days = 1 > 0), decays to `importance * max(0.01, exp(-1/30))`. -/
theorem claim_C3_witness :
    epMemory.memory_type = MemoryType.episodic
    ∧ 0 < ((86400 : ℝ) - epMemory.created_at) / 86400
    ∧ calculate_importance epMemory 86400 =
        epMemory.importance *
          max 0.01 (Real.exp (-(((86400 : ℝ) - epMemory.created_at) / 86400) / 30)) :=
  ⟨rfl, by norm_num [epMemory],
   (claim_C3 epMemory 86400 rfl).2.1 (by norm_num [epMemory])⟩

/-- Claim C4 counterexample: the `Memory` dataclass performs no construction
validation — a Memory with importance 2.0 (outside [0, 1]) is constructed
without any `INVALID_MEMORY` error, and the scoring function is reached with
it, returning 2.0. -/
theorem claim_C4_counterexample :
    badMemory.importance = 2
    ∧ ¬((0 : ℝ) ≤ badMemory.importance ∧ badMemory.importance ≤ 1)
    ∧ calculate_importance badMemory 0 = 2 :=
  ⟨rfl, by norm_num [badMemory],
   by simp [calculate_importance, MEMORY_CONFIGS, badMemory]⟩

/-- Claim C4 (amended): constructing a `Memory` performs no validation at
the dataclass (`types.py Memory`): any importance value — including values
outside [0, 1] — is stored unchanged, never clamped and never rejected, and
the decay/scoring functions are reached with it and return it unchanged (for
a non-decaying tier).  No `INVALID_MEMORY` error exists in the memory core;
range validation appears only in the separate pydantic `MemoryCreate` API
schema. -/
theorem claim_C4_amended (imp t : ℝ) :
    (Memory.mk "c" MemoryType.semantic imp 0 [] none none none none).importance
        = imp
    ∧ calculate_importance
        (Memory.mk "c" MemoryType.semantic imp 0 [] none none none none) t
        = imp :=
  ⟨rfl, by simp [calculate_importance, MEMORY_CONFIGS]⟩

/-- Claim C7: effective importance of a WORKING memory is a cliff function of
age — exactly 0 past the fixed 24-hour TTL, the raw importance unchanged
otherwise. -/
theorem claim_C7 (m : Memory) (t : ℝ) (h : m.memory_type = MemoryType.working) :
    WORKING_MEMORY_TTL_HOURS = 24
    ∧ ((t - m.created_at) / 3600 > WORKING_MEMORY_TTL_HOURS →
        calculate_importance m t = 0)
    ∧ ((t - m.created_at) / 3600 ≤ WORKING_MEMORY_TTL_HOURS →
        calculate_importance m t = m.importance) := by
  refine ⟨rfl, ?_, ?_⟩
  · intro hgt
    rw [calculate_importance_working m t h, if_pos hgt]
  · intro hle
    rw [calculate_importance_working m t h, if_neg (not_lt.2 hle)]

/-- Claim C7 witness: a WORKING memory created at time 0 and scored at 25
hours (TTL + 1h) has effective importance exactly 0. -/
theorem claim_C7_witness :
    wkMemory.memory_type = MemoryType.working
    ∧ ((90000 : ℝ) - wkMemory.created_at) / 3600 > WORKING_MEMORY_TTL_HOURS
    ∧ calculate_importance wkMemory 90000 = 0 :=
  ⟨rfl, by norm_num [wkMemory, WORKING_MEMORY_TTL_HOURS],
   (claim_C7 wkMemory 90000 rfl).2.1
     (by norm_num [wkMemory, WORKING_MEMORY_TTL_HOURS])⟩

/-- Claim C5 counterexample: when neither lookup finds the handle, the
optimistic insert payload has `type = "System"` (the code's
`EntityType.SYSTEM` default), not the `UNRESOLVED` type the claim states. -/
theorem claim_C5_counterexample :
    (EntityResolver.resolve c5InsertEnv "bob").2.1
        = [⟨"bob", ["bob"], "System"⟩]
    ∧ ("System" : String) ≠ "UNRESOLVED"
    ∧ ("System" : String) ≠ "Unresolved" := by
  refine ⟨?_, by decide, by decide⟩
  simp [EntityResolver.resolve, c5InsertEnv, EntityType.value,
    show pyStrip "bob" = "bob" from by decide]

/-- Claim C5 (amended): for a handle neither lookup finds,
`EntityResolver.resolve` optimistically inserts
`{canonical_name: trimmed, aliases: [trimmed], type: SYSTEM ("System")}`;
on insert conflict it re-runs the canonical-name lookup exactly once (two
canonical lookups in total) and returns the already-existing entity, and if
the retry fetch still finds nothing it returns a non-persisted synthetic
entity typed "Unresolved" instead of raising. -/
theorem claim_C5_amended (env : EntityEnv) (raw : String)
    (h1 : env.canonical1 = .ok []) (h2 : env.aliasLookup = .ok []) :
    (EntityResolver.resolve env raw).2.1
        = [⟨pyStrip raw, [pyStrip raw], "System"⟩]
    ∧ (∀ e es, env.insertResult = Except.error () →
        env.canonical2 = .ok (e :: es) →
        (EntityResolver.resolve env raw).1 = e)
    ∧ (env.insertResult = Except.error () →
        (EntityResolver.resolve env raw).2.2 = 2)
    ∧ (env.insertResult = Except.error () → env.canonical2 = .ok [] →
        (EntityResolver.resolve env raw).1
          = ⟨some env.fresh_uuid, pyStrip raw, none, "Unresolved"⟩) := by
  refine ⟨?_, ?_, ?_, ?_⟩
  · rcases hins : env.insertResult with u | es
    · rcases hc2 : env.canonical2 with u2 | es2
      · simp [EntityResolver.resolve, h1, h2, hins, hc2, EntityType.value]
      · cases es2 <;>
          simp [EntityResolver.resolve, h1, h2, hins, hc2, EntityType.value]
    · cases es <;> simp [EntityResolver.resolve, h1, h2, hins, EntityType.value]
  · intro e es hins hc2
    simp [EntityResolver.resolve, h1, h2, hins, hc2]
  · intro hins
    rcases hc2 : env.canonical2 with u2 | es2
    · simp [EntityResolver.resolve, h1, h2, hins, hc2]
    · cases es2 <;> simp [EntityResolver.resolve, h1, h2, hins, hc2]
  · intro hins hc2
    simp [EntityResolver.resolve, h1, h2, hins, hc2]

/-- Claim C5 witness: both lookups empty, insert conflicts, retry fetch finds
the concurrently created row — the resolver returns that row, having issued
exactly two canonical-name lookups and one insert attempt typed "System". -/
theorem claim_C5_witness :
    c5ConflictEnv.canonical1 = .ok []
    ∧ c5ConflictEnv.aliasLookup = .ok []
    ∧ c5ConflictEnv.insertResult = Except.error ()
    ∧ c5ConflictEnv.canonical2 = .ok [entX]
    ∧ (EntityResolver.resolve c5ConflictEnv "bob").2.1
        = [⟨pyStrip "bob", [pyStrip "bob"], "System"⟩]
    ∧ (EntityResolver.resolve c5ConflictEnv "bob").1 = entX
    ∧ (EntityResolver.resolve c5ConflictEnv "bob").2.2 = 2 :=
  ⟨rfl, rfl, rfl, rfl,
   (claim_C5_amended c5ConflictEnv "bob" rfl rfl).1,
   (claim_C5_amended c5ConflictEnv "bob" rfl rfl).2.1 entX [] rfl rfl,
   (claim_C5_amended c5ConflictEnv "bob" rfl rfl).2.2.1 rfl⟩

/-- Claim C8: when the curator is unavailable or its single call fails
(error or unparseable output), `create_search_plan` returns the deterministic
fallback plan — the five tiers in ResolutionOrder, `limit_per_tier = 5`,
`filters = {user_id: caller}`, `early_stop = false` — and the Gemini model is
attempted at most once, never retried. -/
theorem claim_C8 (env : CuratorEnv) (q : String) (uid : Option String)
    (an sc : String) :
    (create_search_plan env q uid an sc).2 ≤ 1
    ∧ (curatorUnusable env q (pyOrStr uid "anonymous") an sc →
        (create_search_plan env q uid an sc).1 = get_fallback_plan uid)
    ∧ (get_fallback_plan uid).tiers
        = ["working", "episodic", "semantic", "lineage", "collective"]
    ∧ (["working", "episodic", "semantic", "lineage",
        "collective"] : List String).filterMap parseTier
        = MEMORY_RESOLUTION_ORDER
    ∧ (get_fallback_plan uid).limit_per_tier = some 5
    ∧ ((get_fallback_plan uid).filters.getD emptyFilters).user_id = uid
    ∧ (get_fallback_plan uid).early_stop = some false := by
  refine ⟨?_, ?_, rfl, by decide, rfl, rfl, rfl⟩
  · rcases hg : env.gen with _ | g
    · simp [create_search_plan, hg]
    · rcases hr : g q (pyOrStr uid "anonymous") an sc with e | t
      · simp [create_search_plan, hg, hr]
      · rcases hp : env.parseJson (stripCodeFences t) with e2 | p <;>
          simp [create_search_plan, hg, hr, hp]
  · intro hu
    unfold curatorUnusable at hu
    rcases hg : env.gen with _ | g
    · simp [create_search_plan, hg]
    · simp only [hg] at hu
      rcases hr : g q (pyOrStr uid "anonymous") an sc with e | t
      · simp [create_search_plan, hg, hr]
      · simp only [hr] at hu
        simp [create_search_plan, hg, hr, hu]

/-- Claim C8 witness: with no Gemini model configured the plan returned is
exactly the fallback plan. -/
theorem claim_C8_witness :
    curatorUnusable noCuratorEnv "q" (pyOrStr none "anonymous") "a" "s"
    ∧ (create_search_plan noCuratorEnv "q" none "a" "s").1
        = get_fallback_plan none :=
  ⟨trivial, (claim_C8 noCuratorEnv "q" none "a" "s").2.1 trivial⟩

/-- Claim C9: the traversal stops before fetching further tiers exactly when
`plan.early_stop` is set and the accumulated `total_count` has reached
`2 * limit_per_tier` — the fetched-tier trace equals the plan's valid tiers
truncated at `stopLen`, whose stopping rule is `early_stop && total ≥
limit_per_tier * 2` (not any fixed count of 10). -/
theorem claim_C9 (env : ResolveEnv) (plan : SearchPlan) (query : String)
    (cuid aid sid : Option String) (ws : Option (List Memory)) (now : ℝ) :
    (resolveWithPlan env plan query cuid aid sid ws now).tierTrace =
      (plan.tiers.filterMap parseTier).take
        (stopLen (plan.early_stop.getD false) (plan.limit_per_tier.getD 5)
          (resolveTierTotals env plan query cuid aid ws now)) :=
  resolveLoop_trace (mkLoopCtx env plan query cuid aid now) plan.tiers
    ⟨[], 0, ws.getD [], []⟩

/-- Claim C10: `apply_decay_to_memories` overwrites each input element's
importance in place (the raw importance is lost) before returning the sorted
list, and consequently `MemoryResolver.resolve` mutates the caller-supplied
`working_memories`: after a resolution whose plan starts with the WORKING
tier (and does not list it again), the first `limit_per_tier` elements of the
caller's list carry their effective importance instead of the raw one. -/
theorem claim_C10 (ms : List Memory) (mnow : ℝ) (env : ResolveEnv)
    (plan : SearchPlan) (query : String) (cuid aid sid : Option String)
    (ws : List Memory) (now : ℝ) (rest : List String)
    (h1 : plan.tiers = "working" :: rest)
    (h2 : MemoryType.working ∉ rest.filterMap parseTier)
    (h3 : ws ≠ []) (h4 : 0 < plan.limit_per_tier.getD 5) :
    (apply_decay_to_memories ms mnow).1 = ms.map (overwriteImportance mnow)
    ∧ (apply_decay_to_memories ms mnow).2
        = sortByImportanceDesc (ms.map (overwriteImportance mnow))
    ∧ (resolveWithPlan env plan query cuid aid sid (some ws) now).workingAfter
        = (ws.take (plan.limit_per_tier.getD 5)).map (overwriteImportance now)
          ++ ws.drop (plan.limit_per_tier.getD 5) := by
  refine ⟨by simp [apply_decay_to_memories, overwriteImportances_eq_map],
    by simp [apply_decay_to_memories, overwriteImportances_eq_map], ?_⟩
  have hL : (mkLoopCtx env plan query cuid aid now).limit
      = plan.limit_per_tier.getD 5 := rfl
  have hne : ((⟨[], 0, (some ws).getD [], []⟩ :
      LoopState).working.take (mkLoopCtx env plan query cuid aid now).limit).isEmpty
      = false := by
    cases hE : (ws.take (mkLoopCtx env plan query cuid aid now).limit).isEmpty
    · exact hE
    · exfalso
      have := List.isEmpty_iff.1 hE
      rw [List.take_eq_nil_iff] at this
      rcases this with h | h
      · rw [hL] at h
        omega
      · exact h3 h
  simp only [resolveWithPlan, h1]
  rw [resolveLoop]
  rw [parseTier_working]
  dsimp only
  by_cases hstop : ((mkLoopCtx env plan query cuid aid now).earlyStop &&
      decide ((loopStep (mkLoopCtx env plan query cuid aid now)
        MemoryType.working ⟨[], 0, (some ws).getD [], []⟩).total ≥
          (mkLoopCtx env plan query cuid aid now).limit * 2)) = true
  · rw [if_pos hstop]
    exact loopStep_working_eq _ _ hne
  · rw [if_neg hstop]
    dsimp only
    rw [resolveLoop_working _ rest _ h2]
    exact loopStep_working_eq _ _ hne

/-- Claim C10 witness: resolving with a plan `["working"]`, limit 1, over a
caller list holding one WORKING memory, rewrites that caller list with
decayed importances. -/
theorem claim_C10_witness :
    c10Plan.tiers = "working" :: []
    ∧ MemoryType.working ∉ ([] : List String).filterMap parseTier
    ∧ ([wkMemory] : List Memory) ≠ []
    ∧ 0 < c10Plan.limit_per_tier.getD 5
    ∧ (resolveWithPlan noMem0Env c10Plan "q" none none none
        (some [wkMemory]) 0).workingAfter
        = ([wkMemory].take (c10Plan.limit_per_tier.getD 5)).map
            (overwriteImportance 0)
          ++ [wkMemory].drop (c10Plan.limit_per_tier.getD 5) :=
  ⟨rfl, by simp, by simp, by decide,
   (claim_C10 [] 0 noMem0Env c10Plan "q" none none none [wkMemory] 0 []
     rfl (by simp) (by simp) (by decide)).2.2⟩

/-- Claim C6 (code bug evaluated): with `limit_per_tier = 2` and the adapter
returning four hits scored [0.05, 0.05, 0.9, 0.9], `_search_mem0` fetches
`limit * 2 = 4` but truncates to the first two (both 0.05) BEFORE any decay
filtering, so the whole EPISODIC tier comes back empty (`total_count = 0`) —
while decay-then-filter-then-truncate over all four fetched candidates, as
the claim (and the source's own "Get extra for filtering" comment) requires,
would retain the two 0.9 results. -/
theorem claim_C6_bug :
    (MemoryResolver.search_mem0 c6Env "q" (some "alice") none .episodic 2 0).1
        = [c6Mem 0.05, c6Mem 0.05]
    ∧ c6AllMemories 0 = [c6Mem 0.05, c6Mem 0.05, c6Mem 0.9, c6Mem 0.9]
    ∧ (resolveWithPlan c6Env c6Plan "q" (some "alice") none none none
        0).result.total_count = 0
    ∧ ((filter_expired_memories
          (apply_decay_to_memories (c6AllMemories 0) 0).2 0.1).take 2).length
        = 2 := by
  have hcalc : ∀ s : ℝ, calculate_importance (c6Mem s) 0 = s := by
    intro s
    rw [calculate_importance_episodic (c6Mem s) 0 rfl]
    rw [show ((0 : ℝ) - (c6Mem s).created_at) / 86400 = 0 by simp [c6Mem]]
    rw [calculate_decay_factor, if_pos le_rfl]
    norm_num [c6Mem]
  have hover : ∀ s : ℝ, overwriteImportance 0 (c6Mem s) = c6Mem s := by
    intro s
    rw [overwriteImportance, hcalc]
    rfl
  have hall : c6AllMemories 0 = [c6Mem 0.05, c6Mem 0.05, c6Mem 0.9, c6Mem 0.9] := rfl
  have hs1 : MemoryResolver.search_mem0 c6Env "q" (some "alice") none
      .episodic 2 0 = ([c6Mem 0.05, c6Mem 0.05], [⟨"q", "alice", 4⟩]) := rfl
  have himp : ∀ s : ℝ, (c6Mem s).importance = s := fun _ => rfl
  have hsort2 : sortByImportanceDesc [c6Mem 0.05, c6Mem 0.05]
      = [c6Mem 0.05, c6Mem 0.05] := by
    simp [sortByImportanceDesc, insertDesc, himp]
  have hfilt2 : filter_expired_memories [c6Mem 0.05, c6Mem 0.05] 0.1 = [] := by
    have : ¬((c6Mem 0.05).importance ≥ 0.1) := by
      rw [himp]
      norm_num
    simp [filter_expired_memories, this]
  have hdecay2 : apply_decay_to_memories [c6Mem 0.05, c6Mem 0.05] 0
      = ([c6Mem 0.05, c6Mem 0.05], [c6Mem 0.05, c6Mem 0.05]) := by
    simp [apply_decay_to_memories, overwriteImportances_eq_map, hover, hsort2]
  refine ⟨by rw [hs1], hall, ?_, ?_⟩
  · have hst : MemoryResolver.search_tier c6Env MemoryType.episodic "q"
        (some "alice") none [] 2 0
        = ([c6Mem 0.05, c6Mem 0.05], [⟨"q", "alice", 4⟩]) := hs1
    have hstep : loopStep ⟨c6Env, "q", some "alice", none, 2, false, 0⟩
        MemoryType.episodic ⟨[], 0, [], []⟩
        = ⟨[(MemoryType.episodic, [])], 0, [], [⟨"q", "alice", 4⟩]⟩ := by
      simp only [loopStep, hst]
      rw [if_neg (by simp)]
      rw [hdecay2]
      simp [hfilt2, dictAssign]
    simp only [resolveWithPlan, Option.getD]
    rw [show c6Plan.tiers = ["episodic"] from rfl]
    rw [show mkLoopCtx c6Env c6Plan "q" (some "alice") none 0
        = ⟨c6Env, "q", some "alice", none, 2, false, 0⟩ from rfl]
    rw [resolveLoop]
    rw [parseTier_episodic]
    dsimp only
    rw [resolveLoop]
    simp [hstep]
  · have hsort4 : sortByImportanceDesc
        [c6Mem 0.05, c6Mem 0.05, c6Mem 0.9, c6Mem 0.9]
        = [c6Mem 0.9, c6Mem 0.9, c6Mem 0.05, c6Mem 0.05] := by
      simp only [sortByImportanceDesc, List.foldl_cons, List.foldl_nil,
        insertDesc, himp]
      norm_num [insertDesc, himp]
    have hfilt4 : filter_expired_memories
        [c6Mem 0.9, c6Mem 0.9, c6Mem 0.05, c6Mem 0.05] 0.1
        = [c6Mem 0.9, c6Mem 0.9] := by
      have h9 : ((c6Mem 0.9).importance ≥ 0.1) := by
        rw [himp]
        norm_num
      have h5 : ¬((c6Mem 0.05).importance ≥ 0.1) := by
        rw [himp]
        norm_num
      simp [filter_expired_memories, h9, h5]
    rw [hall]
    rw [show apply_decay_to_memories
        [c6Mem 0.05, c6Mem 0.05, c6Mem 0.9, c6Mem 0.9] 0
        = ([c6Mem 0.05, c6Mem 0.05, c6Mem 0.9, c6Mem 0.9],
           [c6Mem 0.9, c6Mem 0.9, c6Mem 0.05, c6Mem 0.05]) from by
      simp [apply_decay_to_memories, overwriteImportances_eq_map, hover, hsort4]]
    rw [hfilt4]
    rfl

end
